import Mathlib

/-!
Shallow embedding of the SEO scoring / comparison / trend-analysis engine of
the `llm_seo_agent` repository, together with proofs checking the
natural-language specification's claims against it.

Source files embedded:
* `src/seo_engine/performance_monitor.py` (`PerformanceMonitor._analyze_trends`)
* `src/seo_engine/competitor_tracker.py` (`CompetitorTracker`)
* `src/seo_engine/content_analyzer.py` (`ContentAnalyzer`)

Modelling conventions:
* Python floats are modelled as `ℚ`; Python `round(x, n)` (banker's rounding)
  is modelled by half-to-even rounding on exact rationals.
* Python code that can raise (`ZeroDivisionError`, a raising crawl) is
  modelled with `Except Unit`.
* HTML parsing (BeautifulSoup / the crawler) is an external collaborator:
  a page enters the model as the feature values the parser extracts from it
  (counts, heading list in document order, lengths).
-/

deriving instance DecidableEq for Except

namespace SeoEngine

/-- Half-to-even ("banker's") rounding of a rational to an integer,
as performed by Python's builtin `round`. -/
def roundHalfEven (x : ℚ) : ℤ :=
  if x - ⌊x⌋ < 1/2 then ⌊x⌋
  else if 1/2 < x - ⌊x⌋ then ⌊x⌋ + 1
  else if ⌊x⌋ % 2 = 0 then ⌊x⌋ else ⌊x⌋ + 1

/-- Python `round(x, 1)`. -/
def round1 (x : ℚ) : ℚ := (roundHalfEven (10 * x) : ℚ) / 10

/-- Python `round(x, 2)`. -/
def round2 (x : ℚ) : ℚ := (roundHalfEven (100 * x) : ℚ) / 100

/-- Python `round(x)` (to an integer). -/
def round0 (x : ℚ) : ℤ := roundHalfEven x

/-! ## Performance monitor: `PerformanceMonitor._analyze_trends`

`src/seo_engine/performance_monitor.py`, lines 213-277.  Each metric's
historical data is the ordered list of values read from the database; the
current metric value is stored separately in the trend entry
(`current_value`) and takes no part in the window computation.  The
strength computation `abs(last - first) / first * 100` raises
`ZeroDivisionError` in Python when the window's first value is `0`; this
is modelled with `Except Unit`. -/

/-- One entry of the `trends` dict: `direction`, `strength` (already
rounded with `round(_, 1)`), and `current_value`. -/
structure TrendEntry where
  direction : String
  strength : ℚ
  current_value : ℚ
  deriving Repr, DecidableEq

/-- Python `history[-7:]` ("Last week"): the most recent 7 points, or the
whole list when it is shorter. -/
def lastWindow (history : List ℚ) : List ℚ := history.drop (history.length - 7)

/-- Trend classification for `ai_citations` / `organic_sessions` (the
straight-polarity branch of `_analyze_trends`): `"up"` iff the window's
last value strictly exceeds its first; strength `|last - first| / first *
100`, raising (`.error`) when the first value is zero. -/
def analyzeTrendMetric (history : List ℚ) (current : ℚ) : Except Unit TrendEntry :=
  if 2 ≤ history.length then
    if 2 ≤ (lastWindow history).length then
      if (lastWindow history).headI = 0 then .error ()
      else
        .ok ⟨(if (lastWindow history).headI < (lastWindow history).getLastD 0
                then "up" else "down"),
             round1 (|(lastWindow history).getLastD 0 - (lastWindow history).headI| /
                (lastWindow history).headI * 100), current⟩
    else .ok ⟨"stable", round1 0, current⟩
  else .ok ⟨"insufficient_data", round1 0, current⟩

/-- Trend classification for `avg_position` ("Rankings trend (inverse -
lower is better)"): `"up"` iff the window's last value is strictly below
its first; the strength formula is unchanged. -/
def analyzeTrendRanking (history : List ℚ) (current : ℚ) : Except Unit TrendEntry :=
  if 2 ≤ history.length then
    if 2 ≤ (lastWindow history).length then
      if (lastWindow history).headI = 0 then .error ()
      else
        .ok ⟨(if (lastWindow history).getLastD 0 < (lastWindow history).headI
                then "up" else "down"),
             round1 (|(lastWindow history).getLastD 0 - (lastWindow history).headI| /
                (lastWindow history).headI * 100), current⟩
    else .ok ⟨"stable", round1 0, current⟩
  else .ok ⟨"insufficient_data", round1 0, current⟩

/-- The per-metric histories handed to `_analyze_trends`. -/
structure HistoricalData where
  ai_citations : List ℚ
  organic_sessions : List ℚ
  avg_position : List ℚ
  deriving Repr

/-- The three trend entries produced by `_analyze_trends`, in the order the
Python function computes them.  A `ZeroDivisionError` raised while
computing any of the three propagates out of the whole call. -/
def analyzeTrends (h : HistoricalData) (curAi curSessions curPos : ℚ) :
    Except Unit (TrendEntry × TrendEntry × TrendEntry) := do
  let ai ← analyzeTrendMetric h.ai_citations curAi
  let traffic ← analyzeTrendMetric h.organic_sessions curSessions
  let rankings ← analyzeTrendRanking h.avg_position curPos
  return (ai, traffic, rankings)

/-- Definition following the SPEC's wording of the trend contract (used
only to compare against the code's behaviour for claim C5): the comparison
window is "the most recent 7 historical points (or fewer if unavailable)
plus current value"; "if fewer than 2 points total are available" the
result is insufficient-data; otherwise the direction compares the window's
first and last values, with the zero-first-value guard resolving to
insufficient-data. -/
def specTrendMetric (history : List ℚ) (current : ℚ) : TrendEntry :=
  if 2 ≤ (lastWindow history ++ [current]).length then
    if (lastWindow history ++ [current]).headI = 0 then
      ⟨"insufficient_data", 0, current⟩
    else
      ⟨(if (lastWindow history ++ [current]).headI <
            (lastWindow history ++ [current]).getLastD 0 then "up" else "down"),
       round1 (|(lastWindow history ++ [current]).getLastD 0 -
            (lastWindow history ++ [current]).headI| /
            (lastWindow history ++ [current]).headI * 100), current⟩
  else ⟨"insufficient_data", 0, current⟩

/-! ## Content analyzer: `ContentAnalyzer`

`src/seo_engine/content_analyzer.py`.  A page enters the model as the
feature values BeautifulSoup/regex extraction produces from its HTML:
counts of matched patterns, element text lengths, and the page's headings
as a document-ordered list of (level, text).  The dict values that are
pure presentation copies of these inputs are carried as record fields. -/

/-- One heading element of a page, with its level (1-6) and text. -/
structure Heading where
  level : ℕ
  text : String
  deriving Repr, DecidableEq, Inhabited

/-- The heading-collection loop of `_analyze_heading_hierarchy`
(content_analyzer.py:230-236): `for i in range(1, 7): for heading in
soup.find_all(f'h{i}')` — all level-1 headings in document order, then all
level-2 headings, and so on; NOT overall document order. -/
def collectHeadings (doc : List Heading) : List Heading :=
  (List.range' 1 6).flatMap fun i => doc.filter fun h => h.level = i

/-- The issue string `f"Jump from H{a} to H{b}"`. -/
def skipMsg (a b : ℕ) : String := s!"Jump from H{a} to H{b}"

/-- The hierarchy-issue loop of `_analyze_heading_hierarchy`
(content_analyzer.py:239-244): `for i, heading in
enumerate(headings[:-1])`, recording a jump when `headings[i+1].level >
headings[i].level + 1`. -/
def hierarchyIssues (hs : List Heading) : List String :=
  (List.range (hs.length - 1)).filterMap fun i =>
    if (hs.getD i default).level + 1 < (hs.getD (i + 1) default).level then
      some (skipMsg (hs.getD i default).level (hs.getD (i + 1) default).level)
    else none

/-- Adjacent-pair reformulation of the same loop: one issue for each
adjacent pair of the walked sequence whose level rises by more than 1. -/
def adjacentSkips (hs : List Heading) : List String :=
  (hs.zip hs.tail).filterMap fun p =>
    if p.1.level + 1 < p.2.level then some (skipMsg p.1.level p.2.level) else none

/-- The `heading_structure` dict returned by `_analyze_heading_hierarchy`
(the per-level count list `by_level` is carried in walk order). -/
structure HeadingHierarchy where
  total_headings : ℕ
  by_level : List ℕ
  hierarchy_issues : List String
  has_h1 : Bool
  multiple_h1 : Bool
  deriving Repr, DecidableEq

def analyzeHeadingHierarchy (doc : List Heading) : HeadingHierarchy :=
  { total_headings := (collectHeadings doc).length
    by_level := (List.range' 1 6).map fun i =>
      ((collectHeadings doc).filter fun h => h.level = i).length
    hierarchy_issues := hierarchyIssues (collectHeadings doc)
    has_h1 := (collectHeadings doc).any fun h => h.level = 1
    multiple_h1 := 1 < ((collectHeadings doc).filter fun h => h.level = 1).length }

/-- Definition following the CLAIM's/spec's wording (used only to compare
against the code for claim C4): walk the page's headings in DOCUMENT
order and record a level-skip issue exactly for each adjacent pair whose
next level exceeds the previous by more than 1. -/
def specDocumentOrderIssues (doc : List Heading) : List String := adjacentSkips doc

/-! ### Score point tables -/

/-- Python `round(min(score, 100), 1)` applied to an integer point total:
the final clamp-and-round every score function ends with. -/
def clampRound (n : ℕ) : ℚ := round1 ((min n 100 : ℕ) : ℚ)

/-- Point total of `ContentAnalyzer._calculate_ai_score`
(content_analyzer.py:340-361). -/
def aiPoints (questions faq_indicators schemas answer_patterns list_patterns : ℕ) : ℕ :=
  min (questions * 5) 30 + (if 0 < faq_indicators then 20 else 0) +
    min (schemas * 8) 25 + min (answer_patterns * 3) 15 + min (list_patterns * 2) 10

/-- `ContentAnalyzer._calculate_ai_score`: AI readiness score. -/
def calculate_ai_score (questions faq_indicators schemas answer_patterns list_patterns : ℕ) : ℚ :=
  clampRound (aiPoints questions faq_indicators schemas answer_patterns list_patterns)

/-- Point total of `ContentAnalyzer._calculate_structure_score`
(content_analyzer.py:363-392), including the `score >= 60` bonus read off
the running subtotal. -/
def structurePoints (hh : HeadingHierarchy) (toc_count sections : ℕ) : ℕ :=
  (if hh.has_h1 && !hh.multiple_h1 then 15 else 0) +
    (if 3 ≤ hh.total_headings then 15 else 0) +
    (if hh.hierarchy_issues.length = 0 then 10 else 0) +
    (if 0 < toc_count then 20 else 0) +
    (if 3 ≤ sections then 20 else if 1 ≤ sections then 10 else 0)

/-- `ContentAnalyzer._calculate_structure_score`: content structure score. -/
def calculate_structure_score (hh : HeadingHierarchy) (toc_count sections : ℕ) : ℚ :=
  clampRound (structurePoints hh toc_count sections +
    (if 60 ≤ structurePoints hh toc_count sections ∧ 5 ≤ hh.total_headings
      then 20 else 0))

/-- The `headings` count dict built by `CompetitorTracker._analyze_technical_seo`
from the crawler's `h{i}_count` metadata. -/
structure HeadingCounts where
  h1 : ℕ
  h2 : ℕ
  h3 : ℕ
  h4 : ℕ
  h5 : ℕ
  h6 : ℕ
  deriving Repr, DecidableEq

/-- Python `sum(headings.values())`. -/
def HeadingCounts.total (hc : HeadingCounts) : ℕ :=
  hc.h1 + hc.h2 + hc.h3 + hc.h4 + hc.h5 + hc.h6

/-- Point total of `CompetitorTracker._calculate_technical_score`
(competitor_tracker.py:348-381). -/
def technicalPoints (load_time : ℚ) (has_title has_meta : Bool)
    (schema_count : ℕ) (headings : HeadingCounts) : ℕ :=
  (if load_time < 2 then 25 else if load_time < 4 then 15 else 5) +
    (if has_title then 15 else 0) + (if has_meta then 15 else 0) +
    min (schema_count * 5) 20 +
    (if headings.h1 = 1 then 15 else if 1 < headings.h1 then 5 else 0) +
    (if 3 ≤ headings.total then 10 else 0)

/-- `CompetitorTracker._calculate_technical_score`: technical SEO score. -/
def calculate_technical_score (load_time : ℚ) (has_title has_meta : Bool)
    (schema_count : ℕ) (headings : HeadingCounts) : ℚ :=
  clampRound (technicalPoints load_time has_title has_meta schema_count headings)

/-- Point total of `CompetitorTracker._calculate_content_depth_score`
(competitor_tracker.py:383-407). -/
def contentDepthPoints (avg_words : ℚ) (questions headings pages : ℕ) : ℕ :=
  (if 1500 ≤ avg_words then 40 else if 800 ≤ avg_words then 30
    else if 300 ≤ avg_words then 20 else 10) +
    min (questions * 3) 30 + min (headings * 2) 20 + min (pages * 2) 10

/-- `CompetitorTracker._calculate_content_depth_score`: content depth score. -/
def calculate_content_depth_score (avg_words : ℚ) (questions headings pages : ℕ) : ℚ :=
  clampRound (contentDepthPoints avg_words questions headings pages)

/-- Word-count band of `ContentAnalyzer._calculate_overall_score`
(content_analyzer.py:399-408). -/
def wordCountPoints (word_count : ℕ) : ℕ :=
  if 300 ≤ word_count ∧ word_count ≤ 2500 then 25
  else if 2500 < word_count then 20
  else if 100 ≤ word_count then 15
  else 5

/-- SEO-elements subtotal of `_calculate_overall_score`
(content_analyzer.py:410-418). -/
def seoElementsPoints (title_len meta_desc_len h1_count : ℕ) : ℕ :=
  (if 0 < title_len then 8 else 0) + (if 0 < meta_desc_len then 8 else 0) +
    (if h1_count = 1 then 9 else 0)

/-- `ContentAnalyzer._calculate_overall_score`: per-page overall content
quality score = word band + SEO elements + ai/4 + structure/4, rounded to
1 decimal — with no explicit final clamp. -/
def calculate_overall_score (word_count title_len meta_desc_len h1_count : ℕ)
    (ai_score structure_score : ℚ) : ℚ :=
  round1 ((wordCountPoints word_count : ℚ) +
    (seoElementsPoints title_len meta_desc_len h1_count : ℚ) +
    ai_score / 4 + structure_score / 4)

/-- The feature values extracted from one page's content by the parsing
layer of `ContentAnalyzer.analyze_content` (BeautifulSoup + regexes). -/
structure PageContent where
  word_count : ℕ
  title_len : ℕ
  meta_desc_len : ℕ
  headings : List Heading
  question_count : ℕ
  faq_indicator_count : ℕ
  schema_script_count : ℕ
  answer_pattern_count : ℕ
  list_pattern_count : ℕ
  toc_count : ℕ
  section_count : ℕ
  deriving Repr, DecidableEq

/-- Python `len(soup.find_all('h1'))` for the page. -/
def h1Count (p : PageContent) : ℕ := (p.headings.filter fun h => h.level = 1).length

/-- The part of the `analyze_content` result dict consumed downstream. -/
structure ContentAnalysisResult where
  hierarchy : HeadingHierarchy
  ai_optimization_score : ℚ
  structure_score : ℚ
  overall_score : ℚ
  question_count : ℕ
  has_faq_structure : Bool
  total_schemas : ℕ
  answer_patterns : ℕ
  list_patterns : ℕ
  deriving Repr, DecidableEq

/-- `ContentAnalyzer.analyze_content` (content_analyzer.py:26-63),
restricted to the fields consumed by scoring and by the competitor
tracker. -/
def analyze_content (p : PageContent) : ContentAnalysisResult :=
  { hierarchy := analyzeHeadingHierarchy p.headings
    ai_optimization_score := calculate_ai_score p.question_count p.faq_indicator_count
      p.schema_script_count p.answer_pattern_count p.list_pattern_count
    structure_score := calculate_structure_score (analyzeHeadingHierarchy p.headings)
      p.toc_count p.section_count
    overall_score := calculate_overall_score p.word_count p.title_len p.meta_desc_len
      (h1Count p)
      (calculate_ai_score p.question_count p.faq_indicator_count
        p.schema_script_count p.answer_pattern_count p.list_pattern_count)
      (calculate_structure_score (analyzeHeadingHierarchy p.headings)
        p.toc_count p.section_count)
    question_count := p.question_count
    has_faq_structure := 0 < p.faq_indicator_count
    total_schemas := p.schema_script_count
    answer_patterns := p.answer_pattern_count
    list_patterns := p.list_pattern_count }

/-! ## Competitor tracker: `CompetitorTracker`

`src/seo_engine/competitor_tracker.py`.  The crawler is the external
fetch collaborator: a crawl either raises (modelled `.error ()`) or
returns the list of successfully crawled pages (possibly empty).  Python's
string-randomized `hash()` used by the simulated authority signals is
modelled as an explicit function parameter `hashFn`. -/

/-- The crawler metadata of a page consumed by the tracker
(`meta_data` keys `title`, `description`, `structured_data_count`,
`h{i}_count`, `h1_first`). -/
structure PageMeta where
  hasTitle : Bool
  hasDescription : Bool
  schemaCount : ℕ
  hCounts : HeadingCounts
  h1First : String
  deriving Repr, DecidableEq

/-- One successfully crawled page as consumed by `_analyze_single_site`:
the features the content analyzer extracts from `result.content`, the raw
word count `len(result.content.split())` and the content-strategy
question-regex match count computed directly on `result.content`, the
fetch load time, and the crawler metadata. -/
structure CrawlPage where
  content : PageContent
  rawWordCount : ℕ
  csQuestionCount : ℕ
  load_time : ℚ
  meta : PageMeta
  deriving Repr, DecidableEq

instance : Inhabited PageContent := ⟨⟨0, 0, 0, [], 0, 0, 0, 0, 0, 0, 0⟩⟩

instance : Inhabited CrawlPage :=
  ⟨⟨default, 0, 0, 0, ⟨false, false, 0, ⟨0, 0, 0, 0, 0, 0⟩, ""⟩⟩⟩

/-- The dict returned by `_analyze_technical_seo`
(competitor_tracker.py:97-133) for a nonempty crawl list (the empty case
never reaches it: the caller returns the error record first).  The score
is computed from the UN-rounded average load time; the dict stores the
2-decimal rounding. -/
structure TechnicalAnalysis where
  avg_load_time : ℚ
  has_title_tag : Bool
  has_meta_description : Bool
  schema_markup_count : ℕ
  heading_structure : HeadingCounts
  mobile_friendly : Bool
  pages_crawled : ℕ
  technical_score : ℚ
  deriving Repr, DecidableEq

def analyzeTechnicalSeo (pages : List CrawlPage) : TechnicalAnalysis :=
  { avg_load_time := round2 ((pages.map CrawlPage.load_time).sum / pages.length)
    has_title_tag := pages.headI.meta.hasTitle
    has_meta_description := pages.headI.meta.hasDescription
    schema_markup_count := pages.headI.meta.schemaCount
    heading_structure := pages.headI.meta.hCounts
    mobile_friendly := true
    pages_crawled := pages.length
    technical_score := calculate_technical_score
      ((pages.map CrawlPage.load_time).sum / pages.length)
      pages.headI.meta.hasTitle pages.headI.meta.hasDescription
      pages.headI.meta.schemaCount pages.headI.meta.hCounts }

/-- The dict returned by `_analyze_content_strategy`
(competitor_tracker.py:135-175): totals over all crawled pages, with the
depth score computed from the un-rounded average words per page. -/
structure ContentStrategy where
  total_pages_analyzed : ℕ
  avg_words_per_page : ℤ
  total_questions : ℕ
  total_headings : ℕ
  content_topics : List String
  content_depth_score : ℚ
  deriving Repr, DecidableEq

def analyzeContentStrategy (pages : List CrawlPage) : ContentStrategy :=
  { total_pages_analyzed := pages.length
    avg_words_per_page :=
      round0 (((pages.map CrawlPage.rawWordCount).sum : ℚ) / pages.length)
    total_questions := (pages.map CrawlPage.csQuestionCount).sum
    total_headings := (pages.map fun pg => pg.meta.hCounts.total).sum
    content_topics := pages.filterMap fun pg =>
      if pg.meta.h1First ≠ "" then some pg.meta.h1First else none
    content_depth_score := calculate_content_depth_score
      (((pages.map CrawlPage.rawWordCount).sum : ℚ) / pages.length)
      (pages.map CrawlPage.csQuestionCount).sum
      (pages.map fun pg => pg.meta.hCounts.total).sum
      pages.length }

/-- The dict returned by `_assess_ai_readiness`
(competitor_tracker.py:177-188): fields copied out of the homepage
content analysis. -/
structure AiAssessment where
  ai_optimization_score : ℚ
  question_count : ℕ
  has_faq_structure : Bool
  structured_data_schemas : ℕ
  answer_patterns : ℕ
  list_patterns : ℕ
  deriving Repr, DecidableEq

def assessAiReadiness (c : ContentAnalysisResult) : AiAssessment :=
  { ai_optimization_score := c.ai_optimization_score
    question_count := c.question_count
    has_faq_structure := c.has_faq_structure
    structured_data_schemas := c.total_schemas
    answer_patterns := c.answer_patterns
    list_patterns := c.list_patterns }

/-- The dict returned by `_analyze_authority_signals`
(competitor_tracker.py:190-211): simulated authority numbers derived from
`hash(domain)`, modelled by the explicit `hashFn`.  (`backlink_score` is
computed in the source but never used in the returned dict.) -/
structure AuthoritySignals where
  domain_authority : ℤ
  estimated_backlinks : ℤ
  estimated_referring_domains : ℤ
  content_freshness_score : ℤ
  social_signals : ℤ
  brand_mentions : ℤ
  deriving Repr, DecidableEq

def analyzeAuthoritySignals (hashFn : String → ℤ) (domain : String) : AuthoritySignals :=
  { domain_authority := round0 (40 + ((hashFn domain % 100 : ℤ) : ℚ) * 0.6)
    estimated_backlinks := hashFn domain % 10000 + 100
    estimated_referring_domains := hashFn domain % 1000 + 50
    content_freshness_score := (hashFn domain * 13) % 100
    social_signals := hashFn domain % 500 + 10
    brand_mentions := hashFn domain % 200 + 5 }

/-- `_calculate_site_score` (competitor_tracker.py:409-419): the site
overall score reads the HOMEPAGE content analysis's `overall_score` (not
the content-depth score) and weights it 0.40. -/
def calculate_site_score (content_analysis : ContentAnalysisResult)
    (technical_analysis : TechnicalAnalysis) (ai_assessment : AiAssessment) : ℚ :=
  round1 (content_analysis.overall_score * 0.4 +
    technical_analysis.technical_score * 0.35 +
    ai_assessment.ai_optimization_score * 0.25)

/-- The full site-analysis dict built by `_analyze_single_site` for a
nonempty crawl (competitor_tracker.py:87-95). -/
structure SiteAnalysis where
  domain : String
  homepage_analysis : ContentAnalysisResult
  technical_seo : TechnicalAnalysis
  content_strategy : ContentStrategy
  ai_readiness : AiAssessment
  authority_signals : AuthoritySignals
  overall_score : ℚ
  deriving Repr, DecidableEq

/-- What `_analyze_single_site` returns without raising: either the
`{'error': ...}` dict (empty crawl) or the full analysis dict. -/
inductive SiteAnalysisResult where
  | err (msg : String)
  | ok (a : SiteAnalysis)
  deriving Repr, DecidableEq

/-- Python `domain.startswith(('http://', 'https://'))` normalization at
the top of `_analyze_single_site` (competitor_tracker.py:61-62), with
`startswith` modelled on the character list. -/
def normalizeDomain (domain : String) : String :=
  if "http://".data.isPrefixOf domain.data ∨ "https://".data.isPrefixOf domain.data
    then domain
  else "https://" ++ domain

def buildSiteAnalysis (hashFn : String → ℤ) (d : String) (pages : List CrawlPage) :
    SiteAnalysis :=
  { domain := d
    homepage_analysis := analyze_content pages.headI.content
    technical_seo := analyzeTechnicalSeo pages
    content_strategy := analyzeContentStrategy pages
    ai_readiness := assessAiReadiness (analyze_content pages.headI.content)
    authority_signals := analyzeAuthoritySignals hashFn d
    overall_score := calculate_site_score (analyze_content pages.headI.content)
      (analyzeTechnicalSeo pages)
      (assessAiReadiness (analyze_content pages.headI.content)) }

/-- `_analyze_single_site` (competitor_tracker.py:58-95): normalize the
domain, crawl it (a raising crawl propagates as `.error`), return the
error record on an empty crawl, else the full analysis. -/
def analyzeSingleSite (crawlFn : String → Except Unit (List CrawlPage))
    (hashFn : String → ℤ) (domain : String) : Except Unit SiteAnalysisResult :=
  match crawlFn (normalizeDomain domain) with
  | .error _ => .error ()
  | .ok [] => .ok (.err ("Could not analyze " ++ normalizeDomain domain))
  | .ok pages => .ok (.ok (buildSiteAnalysis hashFn (normalizeDomain domain) pages))

/-- `_extract_scores` (competitor_tracker.py:339-346): `dict.get` defaults
make every score 0 on the error record. -/
structure Scores where
  overall_score : ℚ
  ai_score : ℚ
  technical_score : ℚ
  content_score : ℚ
  deriving Repr, DecidableEq

def extractScores : SiteAnalysisResult → Scores
  | .err _ => ⟨0, 0, 0, 0⟩
  | .ok a => ⟨a.overall_score, a.ai_readiness.ai_optimization_score,
      a.technical_seo.technical_score, a.content_strategy.content_depth_score⟩

/-- The `ai_readiness_comparison` insight; its message-free numeric
payload plus the `performance` label. -/
structure AiComparison where
  your_score : ℚ
  competitor_average : ℚ
  best_competitor : ℚ
  performance : String
  deriving Repr, DecidableEq

/-- An `opportunity_areas` entry; the source's message string is
abstracted to its discriminating payload (which gap fired, for which
competitor domain). -/
structure Opportunity where
  kind : String
  domain : String
  deriving Repr, DecidableEq

/-- The insight record built by `_generate_competitive_insights`
(competitor_tracker.py:213-289); message strings are abstracted to their
interpolated numeric payloads `(your score, competitor average)`. -/
structure Insights where
  content_gaps : List (ℚ × ℚ)
  technical_advantages : List (ℚ × ℚ)
  technical_disadvantages : List (ℚ × ℚ)
  ai_readiness_comparison : Option AiComparison
  content_strategy_insights : List String
  opportunity_areas : List Opportunity
  deriving Repr, DecidableEq

def emptyInsights : Insights := ⟨[], [], [], none, [], []⟩

def generateCompetitiveInsights (your : SiteAnalysisResult)
    (comps : List (String × SiteAnalysisResult)) : Insights :=
  if comps.isEmpty then emptyInsights
  else
    let yourScores := extractScores your
    let compScores := comps.map fun p => (p.1, extractScores p.2)
    let aiScores := compScores.map fun p => p.2.ai_score
    let avgAi := aiScores.sum / aiScores.length
    let contentScores := compScores.map fun p => p.2.content_score
    let avgContent := contentScores.sum / contentScores.length
    let techScores := compScores.map fun p => p.2.technical_score
    let avgTech := techScores.sum / techScores.length
    { content_gaps :=
        if yourScores.content_score < avgContent
          then [(yourScores.content_score, avgContent)] else []
      technical_advantages :=
        if avgTech < yourScores.technical_score
          then [(yourScores.technical_score, avgTech)] else []
      technical_disadvantages :=
        if avgTech < yourScores.technical_score
          then [] else [(yourScores.technical_score, avgTech)]
      ai_readiness_comparison := some
        ⟨yourScores.ai_score, round1 avgAi, round1 ((aiScores.max?).getD 0),
          if avgAi < yourScores.ai_score then "above average" else "below average"⟩
      content_strategy_insights := []
      opportunity_areas := compScores.flatMap fun p =>
        (if yourScores.ai_score + 20 < p.2.ai_score
          then [Opportunity.mk "ai" p.1] else []) ++
        (if yourScores.content_score + 15 < p.2.content_score
          then [Opportunity.mk "content" p.1] else []) }

/-- A recommendation record (category, priority, title, impact); the
opportunity-derived recommendations carry their source opportunity in
place of the copied message string. -/
structure Recommendation where
  category : String
  priority : String
  title : String
  impact : String
  opportunity : Option Opportunity
  deriving Repr, DecidableEq

/-- `_generate_competitive_recommendations`
(competitor_tracker.py:291-337); its `your_analysis`/`competitor_analyses`
parameters are unused in the source, which reads only `insights`. -/
def generateCompetitiveRecommendations (insights : Insights) : List Recommendation :=
  (match insights.ai_readiness_comparison with
    | some c =>
      if c.performance = "below average"
        then [⟨"AI Optimization", "High", "Improve AI Search Readiness", "High", none⟩]
        else []
    | none => []) ++
  (if insights.content_gaps.isEmpty then []
    else [⟨"Content Strategy", "Medium", "Address Content Depth Gaps", "Medium", none⟩]) ++
  (if insights.technical_disadvantages.isEmpty then []
    else [⟨"Technical SEO", "High", "Improve Technical Foundation", "High", none⟩]) ++
  (insights.opportunity_areas.take 3).map fun o =>
    ⟨"Competitive Opportunity", "Medium", "Competitive Gap Analysis", "Medium", some o⟩

/-- The dict returned by `analyze_competitors` (competitor_tracker.py:47-56);
`analysis_date` (a wall-clock timestamp) is outside the model. -/
structure ComparisonResult where
  your_domain : String
  your_analysis : SiteAnalysisResult
  competitors : List (String × SiteAnalysisResult)
  insights : Insights
  recommendations : List Recommendation
  deriving Repr, DecidableEq

/-- `CompetitorTracker.analyze_competitors` (competitor_tracker.py:19-56):
analyze the primary site first (a raising crawl propagates); spawn
analyses for `competitor_domains[:5]` only; gather with
`return_exceptions=True` (exceptions kept as values, in task order); zip
the FULL domain list against the 5 results; keep every non-exception
result — including the empty-crawl error record — keyed by domain. -/
def analyzeCompetitors (crawlFn : String → Except Unit (List CrawlPage))
    (hashFn : String → ℤ) (your_domain : String)
    (competitor_domains : List String) : Except Unit ComparisonResult :=
  match analyzeSingleSite crawlFn hashFn your_domain with
  | .error _ => .error ()
  | .ok yourAnalysis =>
    let results := (competitor_domains.take 5).map fun d =>
      analyzeSingleSite crawlFn hashFn d
    let pairs := competitor_domains.zip results
    let competitor_analyses := pairs.filterMap fun p =>
      match p.2 with
      | .ok v => some (p.1, v)
      | .error _ => none
    .ok { your_domain := your_domain
          your_analysis := yourAnalysis
          competitors := competitor_analyses
          insights := generateCompetitiveInsights yourAnalysis competitor_analyses
          recommendations := generateCompetitiveRecommendations
            (generateCompetitiveInsights yourAnalysis competitor_analyses) }

/-- Definition following the CLAIM's/spec's wording for C3 (used only to
compare against the code): site-level overall score as the weighted
average of the site's SUB-scores, content-depth × 0.40 + technical × 0.35
+ ai-readiness × 0.25, rounded to one decimal. -/
def specSiteScore (a : SiteAnalysis) : ℚ :=
  round1 (a.content_strategy.content_depth_score * 0.4 +
    a.technical_seo.technical_score * 0.35 +
    a.ai_readiness.ai_optimization_score * 0.25)

/-- A sample crawled page: no content features, crawler metadata with a
title tag, load time 1s. -/
def samplePage : CrawlPage :=
  { content := ⟨0, 0, 0, [], 0, 0, 0, 0, 0, 0, 0⟩
    rawWordCount := 0
    csQuestionCount := 0
    load_time := 1
    meta := ⟨true, false, 0, ⟨0, 0, 0, 0, 0, 0⟩, ""⟩ }

/-- A stand-in for Python's (seed-randomized) string hash. -/
def sampleHash : String → ℤ := fun _ => 0

/-- A crawl collaborator that succeeds with `samplePage` everywhere. -/
def crawlAllOk : String → Except Unit (List CrawlPage) := fun _ => .ok [samplePage]

/-- A crawl collaborator for which the primary domain's crawl finds no
pages and every other crawl succeeds. -/
def crawlPrimaryEmpty : String → Except Unit (List CrawlPage) := fun d =>
  if d = "https://primary.com" then .ok [] else .ok [samplePage]

/-- A crawl collaborator for which `c2.com`'s crawl finds no pages and
every other crawl succeeds. -/
def crawlC2Empty : String → Except Unit (List CrawlPage) := fun d =>
  if d = "https://c2.com" then .ok [] else .ok [samplePage]

/-- Projection used to state cap/membership facts uniformly over the
`Except` result. -/
def resultCompetitors : Except Unit ComparisonResult → List (String × SiteAnalysisResult)
  | .ok r => r.competitors
  | .error _ => []

/-! ## Theorems -/

theorem roundHalfEven_intCast (k : ℤ) : roundHalfEven (k : ℚ) = k := by
  simp [roundHalfEven]

theorem floor_le_roundHalfEven (x : ℚ) : ⌊x⌋ ≤ roundHalfEven x := by
  unfold roundHalfEven
  split
  · exact le_refl _
  · split
    · exact le_of_lt (lt_add_one _)
    · split
      · exact le_refl _
      · exact le_of_lt (lt_add_one _)

theorem roundHalfEven_le_ceil (x : ℚ) : roundHalfEven x ≤ ⌈x⌉ := by
  unfold roundHalfEven
  have hfc : ⌊x⌋ ≤ ⌈x⌉ := Int.floor_le_ceil x
  have hsucc : x - ⌊x⌋ > 0 → ⌊x⌋ + 1 ≤ ⌈x⌉ := by
    intro hpos
    have hx : (⌊x⌋ : ℚ) < x := by linarith
    have : (⌊x⌋ : ℚ) < (⌈x⌉ : ℚ) := lt_of_lt_of_le hx (Int.le_ceil x)
    exact_mod_cast Int.add_one_le_iff.mpr (by exact_mod_cast this)
  by_cases h1 : x - ⌊x⌋ < 1/2
  · rw [if_pos h1]; exact hfc
  · by_cases h2 : 1/2 < x - ⌊x⌋
    · rw [if_neg h1, if_pos h2]
      exact hsucc (by linarith)
    · have heq : x - ⌊x⌋ = 1/2 := le_antisymm (not_lt.mp h2) (not_lt.mp h1)
      by_cases h3 : ⌊x⌋ % 2 = 0
      · rw [if_neg h1, if_neg h2, if_pos h3]; exact hfc
      · rw [if_neg h1, if_neg h2, if_neg h3]
        exact hsucc (by rw [heq]; norm_num)

theorem round1_nonneg {x : ℚ} (hx : 0 ≤ x) : 0 ≤ round1 x := by
  unfold round1
  have h10 : (0 : ℚ) ≤ 10 * x := by linarith
  have hfl : (0 : ℤ) ≤ ⌊(10 : ℚ) * x⌋ := Int.floor_nonneg.mpr h10
  have := floor_le_roundHalfEven (10 * x)
  have hr : (0 : ℤ) ≤ roundHalfEven (10 * x) := le_trans hfl this
  have hr' : (0 : ℚ) ≤ (roundHalfEven (10 * x) : ℚ) := by exact_mod_cast hr
  linarith

theorem round1_le_hundred {x : ℚ} (hx : x ≤ 100) : round1 x ≤ 100 := by
  unfold round1
  have h10 : (10 : ℚ) * x ≤ 1000 := by linarith
  have hc : ⌈(10 : ℚ) * x⌉ ≤ 1000 := by
    have := Int.ceil_mono h10
    simpa using this
  have hr : roundHalfEven (10 * x) ≤ 1000 := le_trans (roundHalfEven_le_ceil _) hc
  have hr' : (roundHalfEven (10 * x) : ℚ) ≤ 1000 := by exact_mod_cast hr
  linarith

theorem round1_natCast (n : ℕ) : round1 (n : ℚ) = n := by
  unfold round1
  have h : (10 : ℚ) * n = ((10 * n : ℤ) : ℚ) := by push_cast; ring
  rw [h, roundHalfEven_intCast]
  push_cast
  field_simp

example : analyzeTrendMetric [100, 120] 80 = .ok ⟨"up", 20, 80⟩ := by
  norm_num [analyzeTrendMetric, lastWindow, round1, roundHalfEven]

example : analyzeTrendMetric [100] 110 = .ok ⟨"insufficient_data", 0, 110⟩ := by
  norm_num [analyzeTrendMetric, round1, roundHalfEven]

example : analyzeTrendRanking [100, 80] 75 = .ok ⟨"up", 20, 75⟩ := by
  norm_num [analyzeTrendRanking, lastWindow, round1, roundHalfEven]

example : analyzeTrendMetric [0, 5] 7 = .error () := by
  norm_num [analyzeTrendMetric, lastWindow]

theorem lastWindow_two_le {h : List ℚ} (hlen : 2 ≤ h.length) :
    2 ≤ (lastWindow h).length := by
  simp only [lastWindow, List.length_drop]
  omega

/-- Evaluation of the straight-polarity trend branch when at least two
historical points exist and the window's first value is nonzero. -/
theorem analyzeTrendMetric_eq {h : List ℚ} (c : ℚ) (hlen : 2 ≤ h.length)
    (hfz : (lastWindow h).headI ≠ 0) :
    analyzeTrendMetric h c =
      .ok ⟨(if (lastWindow h).headI < (lastWindow h).getLastD 0 then "up" else "down"),
           round1 (|(lastWindow h).getLastD 0 - (lastWindow h).headI| /
              (lastWindow h).headI * 100), c⟩ := by
  unfold analyzeTrendMetric
  rw [if_pos hlen, if_pos (lastWindow_two_le hlen), if_neg hfz]

/-- Evaluation of the inverted (search-ranking) trend branch when at least
two historical points exist and the window's first value is nonzero. -/
theorem analyzeTrendRanking_eq {h : List ℚ} (c : ℚ) (hlen : 2 ≤ h.length)
    (hfz : (lastWindow h).headI ≠ 0) :
    analyzeTrendRanking h c =
      .ok ⟨(if (lastWindow h).getLastD 0 < (lastWindow h).headI then "up" else "down"),
           round1 (|(lastWindow h).getLastD 0 - (lastWindow h).headI| /
              (lastWindow h).headI * 100), c⟩ := by
  unfold analyzeTrendRanking
  rw [if_pos hlen, if_pos (lastWindow_two_le hlen), if_neg hfz]

/-- C1: the spec demands an explicit division-by-zero guard in the trend
strength computation (a zero first-value window must resolve to
insufficient-data with strength 0), but `_analyze_trends` has no such
guard: for each of the three metrics (`ai_citations`, `organic_sessions`,
`avg_position`), a comparison window of at least 2 points whose first value
is `0` makes `abs(last - first) / first * 100` raise `ZeroDivisionError`
(modelled as `.error ()`), so the code contradicts the spec's stated
intent. -/
theorem trend_zero_first_raises :
    analyzeTrends ⟨[0, 5], [], []⟩ 7 0 0 = .error () ∧
    analyzeTrends ⟨[3, 4], [0, 5], []⟩ 0 7 0 = .error () ∧
    analyzeTrends ⟨[3, 4], [3, 4], [0, 5]⟩ 0 0 7 = .error () := by
  refine ⟨?_, ?_, ?_⟩ <;>
    norm_num [analyzeTrends, analyzeTrendMetric, analyzeTrendRanking, lastWindow,
      round1, roundHalfEven, Bind.bind, Except.bind]

/-- C5 counterexample: the code's comparison window is NOT "the most
recent 7 historical points plus the current value".  With history
`[100, 120]` and current value `80` the code ignores the current value and
reports `"up"`, while the claim's window `[100, 120, 80]` compares
`100 → 80` and yields `"down"`; and with a single historical point `[100]`
plus current value `110` (2 points total, so not "fewer than 2") the code
still reports insufficient-data. -/
theorem trend_window_counterexample :
    analyzeTrendMetric [100, 120] 80 = .ok ⟨"up", 20, 80⟩ ∧
    (specTrendMetric [100, 120] 80).direction = "down" ∧
    analyzeTrendMetric [100] 110 = .ok ⟨"insufficient_data", 0, 110⟩ ∧
    (specTrendMetric [100] 110).direction = "up" := by
  refine ⟨?_, ?_, ?_, ?_⟩ <;>
    norm_num [analyzeTrendMetric, specTrendMetric, lastWindow, round1, roundHalfEven]

/-- C5 (amended): for every metric's trend analysis — the straight-polarity
metrics (`ai_citations` / `organic_sessions`) and the inverted ranking
metric (`avg_position`) alike — the comparison window consists of the most
recent 7 HISTORICAL points only; the current value is stored alongside the
trend but takes no part in the window (the reported direction is the same
for any two current values); direction is determined by comparing that
window's first and last values; and the result is insufficient-data with
strength 0 exactly when fewer than 2 HISTORICAL points are available (even
though the current value would bring the total to 2). -/
theorem trend_window_last7_historical (h : List ℚ) (c c' : ℚ) :
    (h.length < 2 →
      analyzeTrendMetric h c = .ok ⟨"insufficient_data", 0, c⟩ ∧
      analyzeTrendRanking h c = .ok ⟨"insufficient_data", 0, c⟩) ∧
    (2 ≤ h.length → (lastWindow h).headI ≠ 0 →
      analyzeTrendMetric h c =
        .ok ⟨(if (lastWindow h).headI < (lastWindow h).getLastD 0 then "up" else "down"),
             round1 (|(lastWindow h).getLastD 0 - (lastWindow h).headI| /
                (lastWindow h).headI * 100), c⟩ ∧
      analyzeTrendRanking h c =
        .ok ⟨(if (lastWindow h).getLastD 0 < (lastWindow h).headI then "up" else "down"),
             round1 (|(lastWindow h).getLastD 0 - (lastWindow h).headI| /
                (lastWindow h).headI * 100), c⟩) ∧
    ((analyzeTrendMetric h c).map TrendEntry.direction =
      (analyzeTrendMetric h c').map TrendEntry.direction ∧
     (analyzeTrendRanking h c).map TrendEntry.direction =
      (analyzeTrendRanking h c').map TrendEntry.direction) := by
  have h0 : round1 0 = 0 := by simpa using round1_natCast 0
  refine ⟨?_, ?_, ?_, ?_⟩
  · intro hlt
    constructor
    · unfold analyzeTrendMetric
      rw [if_neg (by omega), h0]
    · unfold analyzeTrendRanking
      rw [if_neg (by omega), h0]
  · intro hlen hfz
    exact ⟨analyzeTrendMetric_eq c hlen hfz, analyzeTrendRanking_eq c hlen hfz⟩
  · unfold analyzeTrendMetric
    split
    · split
      · split
        · rfl
        · rfl
      · rfl
    · rfl
  · unfold analyzeTrendRanking
    split
    · split
      · split
        · rfl
        · rfl
      · rfl
    · rfl

/-- C5 witness: instantiating the amended statement at history
`[100, 120]`, current value `80`, for both polarity functions. -/
theorem trend_window_last7_historical_witness :
    2 ≤ ([100, 120] : List ℚ).length ∧ (lastWindow [100, 120]).headI ≠ 0 ∧
    (analyzeTrendMetric [100, 120] 80 =
      .ok ⟨(if (lastWindow [100, 120]).headI < (lastWindow [100, 120]).getLastD 0
              then "up" else "down"),
           round1 (|(lastWindow [100, 120]).getLastD 0 - (lastWindow [100, 120]).headI| /
              (lastWindow [100, 120]).headI * 100), 80⟩ ∧
     analyzeTrendRanking [100, 120] 80 =
      .ok ⟨(if (lastWindow [100, 120]).getLastD 0 < (lastWindow [100, 120]).headI
              then "up" else "down"),
           round1 (|(lastWindow [100, 120]).getLastD 0 - (lastWindow [100, 120]).headI| /
              (lastWindow [100, 120]).headI * 100), 80⟩) :=
  ⟨by norm_num, by norm_num [lastWindow],
    (trend_window_last7_historical [100, 120] 80 81).2.1 (by norm_num)
      (by norm_num [lastWindow])⟩

/-- C8: for search-ranking-position windows (at least 2 points, positive
first value) the direction polarity is inverted: a decrease from the
window's first value to its last yields direction `"up"` with strength
`|last - first| / first * 100`. -/
theorem ranking_trend_inverted (h : List ℚ) (c : ℚ) (hlen : 2 ≤ h.length)
    (hpos : 0 < (lastWindow h).headI)
    (hdec : (lastWindow h).getLastD 0 < (lastWindow h).headI) :
    analyzeTrendRanking h c =
      .ok ⟨"up", round1 (|(lastWindow h).getLastD 0 - (lastWindow h).headI| /
          (lastWindow h).headI * 100), c⟩ := by
  rw [analyzeTrendRanking_eq c hlen (ne_of_gt hpos), if_pos hdec]

/-- C8 witness: a window going from position 100 to position 80 yields
direction `"up"` with strength `20.0`. -/
theorem ranking_trend_inverted_witness :
    2 ≤ ([100, 80] : List ℚ).length ∧ 0 < (lastWindow [100, 80]).headI ∧
    (lastWindow [100, 80]).getLastD 0 < (lastWindow [100, 80]).headI ∧
    analyzeTrendRanking [100, 80] 75 = .ok ⟨"up", 20, 75⟩ := by
  refine ⟨by norm_num, by norm_num [lastWindow], by norm_num [lastWindow], ?_⟩
  rw [ranking_trend_inverted [100, 80] 75 (by norm_num) (by norm_num [lastWindow])
    (by norm_num [lastWindow])]
  norm_num [lastWindow, round1, roundHalfEven]

/-- C10 counterexample: with at least 2 historical points whose window
first and last values are equal, the code does not always classify the
trend as `"down"`: when the (equal) values are `0` the strength
computation raises `ZeroDivisionError` and no direction at all is
returned, for the straight-polarity metrics and the ranking metric alike. -/
theorem trend_equal_values_counterexample :
    analyzeTrendMetric [0, 0] 3 = .error () ∧
    analyzeTrendRanking [0, 0] 3 = .error () := by
  constructor <;> norm_num [analyzeTrendMetric, analyzeTrendRanking, lastWindow]

/-- C10 (amended): with at least 2 historical points the `"stable"` branch
is unreachable (any `.ok` result has direction ≠ `"stable"`), and whenever
the window's first value is nonzero the returned direction is exactly
`"up"` or `"down"`, with equal first and last values classified `"down"`
for both polarities; when the first value is zero the computation raises
instead of classifying. -/
theorem trend_never_stable (h : List ℚ) (c : ℚ) (hlen : 2 ≤ h.length) :
    (∀ r, analyzeTrendMetric h c = .ok r → r.direction ≠ "stable") ∧
    (∀ r, analyzeTrendRanking h c = .ok r → r.direction ≠ "stable") ∧
    ((lastWindow h).headI ≠ 0 →
      (∃ r, analyzeTrendMetric h c = .ok r ∧
        (r.direction = "up" ∨ r.direction = "down") ∧
        ((lastWindow h).headI = (lastWindow h).getLastD 0 → r.direction = "down")) ∧
      (∃ r, analyzeTrendRanking h c = .ok r ∧
        (r.direction = "up" ∨ r.direction = "down") ∧
        ((lastWindow h).headI = (lastWindow h).getLastD 0 → r.direction = "down"))) := by
  have hw := lastWindow_two_le hlen
  refine ⟨?_, ?_, ?_⟩
  · intro r hr
    unfold analyzeTrendMetric at hr
    rw [if_pos hlen, if_pos hw] at hr
    by_cases hfz : (lastWindow h).headI = 0
    · rw [if_pos hfz] at hr; cases hr
    · rw [if_neg hfz] at hr
      cases hr
      split <;> simp
  · intro r hr
    unfold analyzeTrendRanking at hr
    rw [if_pos hlen, if_pos hw] at hr
    by_cases hfz : (lastWindow h).headI = 0
    · rw [if_pos hfz] at hr; cases hr
    · rw [if_neg hfz] at hr
      cases hr
      split <;> simp
  · intro hfz
    constructor
    · refine ⟨_, analyzeTrendMetric_eq c hlen hfz, ?_, ?_⟩
      · split <;> simp
      · intro heq
        simp only [heq, lt_self_iff_false, if_false]
    · refine ⟨_, analyzeTrendRanking_eq c hlen hfz, ?_, ?_⟩
      · split <;> simp
      · intro heq
        simp only [heq, lt_self_iff_false, if_false]

theorem hierarchyIssues_eq_adjacentSkips :
    ∀ hs : List Heading, hierarchyIssues hs = adjacentSkips hs
  | [] => rfl
  | [_] => rfl
  | a :: b :: t => by
    have ih := hierarchyIssues_eq_adjacentSkips (b :: t)
    unfold hierarchyIssues adjacentSkips at ih ⊢
    simp only [List.length_cons, Nat.add_sub_cancel, List.tail_cons] at ih ⊢
    rw [List.range_succ_eq_map, List.filterMap_cons, List.filterMap_map]
    simp only [Function.comp_def, Nat.succ_eq_add_one, List.getD_cons_zero,
      List.getD_cons_succ, List.zip_cons_cons, List.filterMap_cons]
    simp only [List.getD_cons_succ] at ih
    rw [ih]

theorem clampRound_eq_cast (n : ℕ) : clampRound n = ((min n 100 : ℕ) : ℚ) :=
  round1_natCast _

theorem clampRound_nonneg (n : ℕ) : 0 ≤ clampRound n := by
  rw [clampRound_eq_cast]; positivity

theorem clampRound_le_hundred (n : ℕ) : clampRound n ≤ 100 := by
  rw [clampRound_eq_cast]
  exact_mod_cast Nat.min_le_right n 100

example :
    calculate_technical_score (3/2) false false 0 ⟨0, 4, 0, 0, 0, 0⟩ = 35 := by
  norm_num [calculate_technical_score, technicalPoints, HeadingCounts.total,
    clampRound, round1, roundHalfEven]

example : calculate_ai_score 6 1 2 0 3 = 72 := by
  norm_num [calculate_ai_score, aiPoints, clampRound, round1, roundHalfEven]

/-- C4 counterexample: heading-hierarchy issue detection does NOT walk the
headings in document order.  For a page whose document order is H4 then
H2, a document-order walk sees the non-skipping pair (4, 2) and records
nothing, but the code's level-grouped walk visits H2 first, then H4, and
records the phantom issue "Jump from H2 to H4". -/
theorem heading_order_counterexample :
    (analyzeHeadingHierarchy [⟨4, "X"⟩, ⟨2, "Y"⟩]).hierarchy_issues =
      ["Jump from H2 to H4"] ∧
    specDocumentOrderIssues [⟨4, "X"⟩, ⟨2, "Y"⟩] = [] ∧
    (analyzeHeadingHierarchy [⟨4, "X"⟩, ⟨2, "Y"⟩]).hierarchy_issues ≠
      specDocumentOrderIssues [⟨4, "X"⟩, ⟨2, "Y"⟩] := by
  refine ⟨by decide, by decide, by decide⟩

/-- C4 (amended): heading-hierarchy issue detection walks the page's
headings grouped by level — all H1s in document order, then all H2s, and
so on through H6 — and records a level-skip issue exactly for each
adjacent pair of that level-grouped sequence whose next heading's level
exceeds the previous heading's level by more than 1. -/
theorem heading_issues_level_grouped (doc : List Heading) :
    (analyzeHeadingHierarchy doc).hierarchy_issues = adjacentSkips (collectHeadings doc) ∧
    collectHeadings doc =
      (doc.filter fun h => h.level = 1) ++ (doc.filter fun h => h.level = 2) ++
      (doc.filter fun h => h.level = 3) ++ (doc.filter fun h => h.level = 4) ++
      (doc.filter fun h => h.level = 5) ++ (doc.filter fun h => h.level = 6) := by
  constructor
  · simpa [analyzeHeadingHierarchy] using
      hierarchyIssues_eq_adjacentSkips (collectHeadings doc)
  · simp [collectHeadings, List.range', List.append_assoc]

theorem wordCountPoints_le (wc : ℕ) : wordCountPoints wc ≤ 25 := by
  unfold wordCountPoints
  split
  · omega
  · split
    · omega
    · split <;> omega

theorem seoElementsPoints_le (a b c : ℕ) : seoElementsPoints a b c ≤ 25 := by
  unfold seoElementsPoints
  split <;> split <;> split <;> omega

/-- C7: every sub-score (technical, content-depth, AI-readiness,
structure) lies within [0, 100], and the per-page overall score — which
has no explicit final clamp — also lies within [0, 100] because each of
its four components (word band, SEO-elements subtotal, ai/4, structure/4)
is bounded by 25.  Quantified over all feature values the parsing layer
can extract, hence over all HTML inputs. -/
theorem content_scores_bounded (load_time avg_words : ℚ) (has_title has_meta : Bool)
    (schema_count : ℕ) (hc : HeadingCounts) (questions headings pages : ℕ)
    (p : PageContent) :
    (0 ≤ calculate_technical_score load_time has_title has_meta schema_count hc ∧
      calculate_technical_score load_time has_title has_meta schema_count hc ≤ 100) ∧
    (0 ≤ calculate_content_depth_score avg_words questions headings pages ∧
      calculate_content_depth_score avg_words questions headings pages ≤ 100) ∧
    (0 ≤ (analyze_content p).ai_optimization_score ∧
      (analyze_content p).ai_optimization_score ≤ 100) ∧
    (0 ≤ (analyze_content p).structure_score ∧
      (analyze_content p).structure_score ≤ 100) ∧
    ((wordCountPoints p.word_count : ℚ) ≤ 25 ∧
      (seoElementsPoints p.title_len p.meta_desc_len (h1Count p) : ℚ) ≤ 25 ∧
      (analyze_content p).ai_optimization_score / 4 ≤ 25 ∧
      (analyze_content p).structure_score / 4 ≤ 25) ∧
    (0 ≤ (analyze_content p).overall_score ∧
      (analyze_content p).overall_score ≤ 100) := by
  have hai₀ : 0 ≤ (analyze_content p).ai_optimization_score := clampRound_nonneg _
  have hai₁ : (analyze_content p).ai_optimization_score ≤ 100 := clampRound_le_hundred _
  have hst₀ : 0 ≤ (analyze_content p).structure_score := clampRound_nonneg _
  have hst₁ : (analyze_content p).structure_score ≤ 100 := clampRound_le_hundred _
  have hwc : (wordCountPoints p.word_count : ℚ) ≤ 25 := by
    exact_mod_cast wordCountPoints_le p.word_count
  have hseo : (seoElementsPoints p.title_len p.meta_desc_len (h1Count p) : ℚ) ≤ 25 := by
    exact_mod_cast seoElementsPoints_le p.title_len p.meta_desc_len (h1Count p)
  have hov : (analyze_content p).overall_score =
      round1 ((wordCountPoints p.word_count : ℚ) +
        (seoElementsPoints p.title_len p.meta_desc_len (h1Count p) : ℚ) +
        (analyze_content p).ai_optimization_score / 4 +
        (analyze_content p).structure_score / 4) := rfl
  refine ⟨⟨clampRound_nonneg _, clampRound_le_hundred _⟩,
    ⟨clampRound_nonneg _, clampRound_le_hundred _⟩,
    ⟨hai₀, hai₁⟩, ⟨hst₀, hst₁⟩,
    ⟨hwc, hseo, by linarith, by linarith⟩, ?_, ?_⟩
  · rw [hov]
    apply round1_nonneg
    have h₀ : (0:ℚ) ≤ (wordCountPoints p.word_count : ℚ) := by positivity
    have h₁ : (0:ℚ) ≤ (seoElementsPoints p.title_len p.meta_desc_len (h1Count p) : ℚ) := by
      positivity
    linarith
  · rw [hov]
    apply round1_le_hundred
    linarith

/-- C10 witness: history `[3, 3]` (equal window endpoints, nonzero): both
polarities classify `"down"`, and no `"stable"` appears. -/
theorem trend_never_stable_witness :
    2 ≤ ([3, 3] : List ℚ).length ∧ (lastWindow [3, 3]).headI ≠ 0 ∧
    (∃ r, analyzeTrendMetric [3, 3] 1 = .ok r ∧
      (r.direction = "up" ∨ r.direction = "down") ∧
      ((lastWindow [3, 3]).headI = (lastWindow [3, 3]).getLastD 0 → r.direction = "down")) :=
  ⟨by norm_num, by norm_num [lastWindow],
    ((trend_never_stable [3, 3] 1 (by norm_num)).2.2 (by norm_num [lastWindow])).1⟩

theorem zip_take_map {α β : Type} (f : α → β) :
    ∀ (l : List α) (n : ℕ),
      l.zip ((l.take n).map f) = (l.take n).map fun d => (d, f d)
  | [], _ => by simp
  | _ :: _, 0 => by simp
  | a :: l, n + 1 => by
    simp only [List.take_succ_cons, List.map_cons, List.zip_cons_cons]
    rw [zip_take_map f l n]

/-- The competitors mapping of any successful comparison: the first 5
domains, each keyed to its own standalone analysis, with the
exception-raising ones filtered out. -/
theorem analyzeCompetitors_competitors (crawlFn : String → Except Unit (List CrawlPage))
    (hashFn : String → ℤ) (yd : String) (doms : List String) (res : ComparisonResult)
    (h : analyzeCompetitors crawlFn hashFn yd doms = .ok res) :
    res.competitors = (doms.take 5).filterMap fun d =>
      match analyzeSingleSite crawlFn hashFn d with
      | .ok v => some (d, v)
      | .error _ => none := by
  unfold analyzeCompetitors at h
  split at h
  · cases h
  · injection h with h'
    subst h'
    show (doms.zip ((doms.take 5).map fun d => analyzeSingleSite crawlFn hashFn d)).filterMap _ = _
    rw [zip_take_map, List.filterMap_map]
    rfl

/-- C6 (amended): a competitor is omitted from the competitors mapping
exactly when its analysis raises an exception (e.g. a raising crawl); a
crawl that merely yields no pages does NOT lead to omission — its
competitor is included, keyed to the `{'error': ...}` record.  Every
included entry is that domain's own standalone analysis (so the remaining
competitors are unaffected), and the comparison as a whole succeeds
whenever the primary analysis does. -/
theorem competitor_failure_isolation (crawlFn : String → Except Unit (List CrawlPage))
    (hashFn : String → ℤ) (yd : String) (doms : List String) :
    (∀ res, analyzeCompetitors crawlFn hashFn yd doms = .ok res →
      res.competitors = (doms.take 5).filterMap fun d =>
        match analyzeSingleSite crawlFn hashFn d with
        | .ok v => some (d, v)
        | .error _ => none) ∧
    ((analyzeSingleSite crawlFn hashFn yd).isOk = true →
      (analyzeCompetitors crawlFn hashFn yd doms).isOk = true) := by
  constructor
  · exact fun res h => analyzeCompetitors_competitors crawlFn hashFn yd doms res h
  · intro hok
    unfold analyzeCompetitors
    cases hy : analyzeSingleSite crawlFn hashFn yd with
    | error e => rw [hy] at hok; cases hok
    | ok ya => simp [Except.isOk, Except.toBool]

/-- C6 witness: with three competitors of which `c2.com`'s crawl yields no
pages, the comparison succeeds and its competitors mapping is exactly the
filter-map over the (at most 5) analyzed domains. -/
theorem competitor_failure_isolation_witness :
    (analyzeSingleSite crawlC2Empty sampleHash "me.com").isOk = true ∧
    (analyzeCompetitors crawlC2Empty sampleHash "me.com"
      ["c1.com", "c2.com", "c3.com"]).isOk = true ∧
    (∀ res, analyzeCompetitors crawlC2Empty sampleHash "me.com"
        ["c1.com", "c2.com", "c3.com"] = .ok res →
      res.competitors = (["c1.com", "c2.com", "c3.com"].take 5).filterMap fun d =>
        match analyzeSingleSite crawlC2Empty sampleHash d with
        | .ok v => some (d, v)
        | .error _ => none) :=
  ⟨rfl,
    (competitor_failure_isolation crawlC2Empty sampleHash "me.com"
      ["c1.com", "c2.com", "c3.com"]).2 rfl,
    (competitor_failure_isolation crawlC2Empty sampleHash "me.com"
      ["c1.com", "c2.com", "c3.com"]).1⟩

/-- C6 counterexample: the claim says a competitor whose fetch/crawl
yields no pages is omitted from the competitors mapping (a 3-competitor
comparison with one such failure should have exactly 2 entries).  In the
code that competitor is NOT omitted: all 3 domains appear, `c2.com` keyed
to the error record. -/
theorem competitor_empty_crawl_counterexample :
    (analyzeCompetitors crawlC2Empty sampleHash "me.com"
        ["c1.com", "c2.com", "c3.com"]).map (fun r => r.competitors.map Prod.fst) =
      .ok ["c1.com", "c2.com", "c3.com"] ∧
    (analyzeCompetitors crawlC2Empty sampleHash "me.com"
        ["c1.com", "c2.com", "c3.com"]).map (fun r => r.competitors.map fun p =>
          match p.2 with
          | .err m => "error: " ++ m
          | .ok _ => "analysis") =
      .ok ["analysis", "error: Could not analyze https://c2.com", "analysis"] := by
  constructor <;> rfl

/-- C9: the competitor list is truncated to its first 5 entries — the
competitors mapping of any comparison over more than 5 domains has at most
5 entries, and every entry's domain is among the first 5; the remaining
domains are silently dropped. -/
theorem competitor_list_capped (crawlFn : String → Except Unit (List CrawlPage))
    (hashFn : String → ℤ) (yd : String) (doms : List String)
    (_hlen : 5 < doms.length) :
    (resultCompetitors (analyzeCompetitors crawlFn hashFn yd doms)).length ≤ 5 ∧
    ∀ p ∈ resultCompetitors (analyzeCompetitors crawlFn hashFn yd doms),
      p.1 ∈ doms.take 5 := by
  cases hr : analyzeCompetitors crawlFn hashFn yd doms with
  | error e => simp [resultCompetitors]
  | ok res =>
    have hc := analyzeCompetitors_competitors crawlFn hashFn yd doms res hr
    simp only [resultCompetitors, hc]
    constructor
    · calc ((doms.take 5).filterMap _).length ≤ (doms.take 5).length :=
            List.length_filterMap_le _ _
        _ ≤ 5 := by simp [List.length_take]
    · intro p hp
      obtain ⟨d, hd, hpd⟩ := List.mem_filterMap.mp hp
      cases hsd : analyzeSingleSite crawlFn hashFn d with
      | error e => rw [hsd] at hpd; cases hpd
      | ok v =>
        rw [hsd] at hpd
        injection hpd with h'
        rw [← h']
        exact hd

/-- C9 witness: a list of 7 competitor domains yields exactly the first 5
in the competitors mapping; the last 2 are dropped. -/
theorem competitor_list_capped_witness :
    5 < (["d1.com", "d2.com", "d3.com", "d4.com", "d5.com", "d6.com", "d7.com"]
      : List String).length ∧
    (resultCompetitors (analyzeCompetitors crawlAllOk sampleHash "me.com"
      ["d1.com", "d2.com", "d3.com", "d4.com", "d5.com", "d6.com", "d7.com"])).length ≤ 5 ∧
    (∀ p ∈ resultCompetitors (analyzeCompetitors crawlAllOk sampleHash "me.com"
        ["d1.com", "d2.com", "d3.com", "d4.com", "d5.com", "d6.com", "d7.com"]),
      p.1 ∈ (["d1.com", "d2.com", "d3.com", "d4.com", "d5.com", "d6.com", "d7.com"]
        : List String).take 5) ∧
    (resultCompetitors (analyzeCompetitors crawlAllOk sampleHash "me.com"
        ["d1.com", "d2.com", "d3.com", "d4.com", "d5.com", "d6.com", "d7.com"])).map
      Prod.fst = ["d1.com", "d2.com", "d3.com", "d4.com", "d5.com"] :=
  ⟨by decide,
    (competitor_list_capped crawlAllOk sampleHash "me.com" _ (by decide)).1,
    (competitor_list_capped crawlAllOk sampleHash "me.com" _ (by decide)).2,
    rfl⟩

/-- C2 (amended): a failure analyzing the primary domain does NOT fail
the whole comparison with a dedicated error (no `PrimaryAnalysisError`
exists in the code).  When the primary crawl yields no pages,
`_analyze_single_site` returns the `{'error': ...}` record and
`analyze_competitors` still returns a full comparison result carrying
that record; only a crawl that itself raises makes the comparison fail,
by propagating the crawler's own exception. -/
theorem primary_failure_behavior (crawlFn : String → Except Unit (List CrawlPage))
    (hashFn : String → ℤ) (yd : String) (doms : List String) :
    (crawlFn (normalizeDomain yd) = .ok [] →
      ∃ res, analyzeCompetitors crawlFn hashFn yd doms = .ok res ∧
        res.your_analysis = .err ("Could not analyze " ++ normalizeDomain yd)) ∧
    (crawlFn (normalizeDomain yd) = .error () →
      analyzeCompetitors crawlFn hashFn yd doms = .error ()) := by
  constructor
  · intro hok
    have hsite : analyzeSingleSite crawlFn hashFn yd =
        .ok (.err ("Could not analyze " ++ normalizeDomain yd)) := by
      unfold analyzeSingleSite
      rw [hok]
    cases hres : analyzeCompetitors crawlFn hashFn yd doms with
    | error e =>
      exfalso
      unfold analyzeCompetitors at hres
      rw [hsite] at hres
      cases hres
    | ok res =>
      refine ⟨res, rfl, ?_⟩
      unfold analyzeCompetitors at hres
      rw [hsite] at hres
      injection hres with h'
      rw [← h']
  · intro herr
    have hsite : analyzeSingleSite crawlFn hashFn yd = .error () := by
      unfold analyzeSingleSite
      rw [herr]
    unfold analyzeCompetitors
    rw [hsite]

/-- C2 witness: instantiating the amended statement at a crawl
collaborator whose primary crawl finds no pages. -/
theorem primary_failure_behavior_witness :
    crawlPrimaryEmpty (normalizeDomain "primary.com") = .ok [] ∧
    (∃ res, analyzeCompetitors crawlPrimaryEmpty sampleHash "primary.com"
        ["c1.com"] = .ok res ∧
      res.your_analysis = .err ("Could not analyze " ++ normalizeDomain "primary.com")) :=
  ⟨by decide,
    (primary_failure_behavior crawlPrimaryEmpty sampleHash "primary.com" ["c1.com"]).1
      (by decide)⟩

/-- C2 counterexample: with a primary domain whose crawl yields no pages
(the claim's own example of a primary-analysis failure), the comparison
does not fail at all: it returns a comparison result whose primary slot
holds the error record, together with 3 generated recommendations — so a
`ComparisonResult` containing insights and recommendations IS produced. -/
theorem primary_failure_counterexample :
    (analyzeCompetitors crawlPrimaryEmpty sampleHash "primary.com" ["c1.com"]).map
        ComparisonResult.your_analysis =
      .ok (.err "Could not analyze https://primary.com") ∧
    (analyzeCompetitors crawlPrimaryEmpty sampleHash "primary.com" ["c1.com"]).map
        (fun r => r.recommendations.length) = .ok 3 := by
  have hscores : extractScores
      (.ok (buildSiteAnalysis sampleHash (normalizeDomain "c1.com") [samplePage])) =
      ⟨17, 0, 40, 12⟩ := by
    norm_num [extractScores, buildSiteAnalysis, analyze_content, analyzeTechnicalSeo,
      analyzeContentStrategy, assessAiReadiness, calculate_technical_score,
      calculate_content_depth_score, calculate_ai_score, calculate_structure_score,
      calculate_overall_score, calculate_site_score, technicalPoints,
      contentDepthPoints, aiPoints, structurePoints, wordCountPoints,
      seoElementsPoints, analyzeHeadingHierarchy, collectHeadings, hierarchyIssues,
      h1Count, HeadingCounts.total, clampRound, round1, roundHalfEven, samplePage,
      List.range', Scores.mk.injEq]
  have hyerr : extractScores (.err "Could not analyze https://primary.com") =
      ⟨0, 0, 0, 0⟩ := rfl
  have hins : generateCompetitiveInsights
      (.err "Could not analyze https://primary.com")
      [("c1.com", .ok (buildSiteAnalysis sampleHash (normalizeDomain "c1.com")
        [samplePage]))] =
      ⟨[(0, 12)], [], [(0, 40)], some ⟨0, 0, 0, "below average"⟩, [], []⟩ := by
    rw [generateCompetitiveInsights]
    norm_num [hscores, hyerr, round1, roundHalfEven, Insights.mk.injEq,
      List.max?, List.foldl]
  constructor
  · rfl
  · show Except.ok (generateCompetitiveRecommendations (generateCompetitiveInsights
        (.err "Could not analyze https://primary.com")
        [("c1.com", .ok (buildSiteAnalysis sampleHash (normalizeDomain "c1.com")
          [samplePage]))])).length = Except.ok 3
    rw [hins]
    rfl

/-- C3 counterexample: the site-level overall score is NOT the weighted
average using the content-depth sub-score.  For a one-page site with
content-depth score 12, technical score 40, AI score 0, and homepage
per-page overall score 7.5, the code produces round1(7.5·0.40 + 40·0.35 +
0·0.25) = 17.0, while the claim's formula gives round1(12·0.40 + 40·0.35 +
0·0.25) = 18.8. -/
theorem site_score_counterexample :
    (buildSiteAnalysis sampleHash "https://x.com" [samplePage]).content_strategy.content_depth_score = 12 ∧
    (buildSiteAnalysis sampleHash "https://x.com" [samplePage]).technical_seo.technical_score = 40 ∧
    (buildSiteAnalysis sampleHash "https://x.com" [samplePage]).homepage_analysis.overall_score = 15/2 ∧
    (buildSiteAnalysis sampleHash "https://x.com" [samplePage]).overall_score = 17 ∧
    specSiteScore (buildSiteAnalysis sampleHash "https://x.com" [samplePage]) = 94/5 ∧
    (buildSiteAnalysis sampleHash "https://x.com" [samplePage]).overall_score ≠
      specSiteScore (buildSiteAnalysis sampleHash "https://x.com" [samplePage]) := by
  norm_num [buildSiteAnalysis, specSiteScore, analyze_content, analyzeTechnicalSeo,
    analyzeContentStrategy, assessAiReadiness, calculate_technical_score,
    calculate_content_depth_score, calculate_ai_score, calculate_structure_score,
    calculate_overall_score, calculate_site_score, technicalPoints, contentDepthPoints,
    aiPoints, structurePoints, wordCountPoints, seoElementsPoints,
    analyzeHeadingHierarchy, collectHeadings, hierarchyIssues, h1Count,
    HeadingCounts.total, clampRound, round1, roundHalfEven, samplePage, List.range']

/-- C3 (amended): for every site analysis the code produces, the
site-level overall score is the weighted average homepage-per-page-overall
× 0.40 + technical × 0.35 + ai-readiness × 0.25 of that record's own
fields, rounded to one decimal; the content-depth sub-score is not an
input of the site score. -/
theorem site_score_formula (crawlFn : String → Except Unit (List CrawlPage))
    (hashFn : String → ℤ) (d : String) (a : SiteAnalysis)
    (h : analyzeSingleSite crawlFn hashFn d = .ok (.ok a)) :
    a.overall_score = round1 (a.homepage_analysis.overall_score * 0.4 +
      a.technical_seo.technical_score * 0.35 +
      a.ai_readiness.ai_optimization_score * 0.25) := by
  unfold analyzeSingleSite at h
  cases hc : crawlFn (normalizeDomain d) with
  | error e => rw [hc] at h; cases h
  | ok pages =>
    rw [hc] at h
    cases pages with
    | nil => simp at h
    | cons p ps =>
      injection h with h'
      injection h' with h''
      rw [← h'']
      rfl

/-- C3 witness: instantiating the amended statement at the sample
one-page site. -/
theorem site_score_formula_witness :
    analyzeSingleSite crawlAllOk sampleHash "x.com" =
      .ok (.ok (buildSiteAnalysis sampleHash (normalizeDomain "x.com") [samplePage])) ∧
    (buildSiteAnalysis sampleHash (normalizeDomain "x.com") [samplePage]).overall_score =
      round1 ((buildSiteAnalysis sampleHash (normalizeDomain "x.com")
          [samplePage]).homepage_analysis.overall_score * 0.4 +
        (buildSiteAnalysis sampleHash (normalizeDomain "x.com")
          [samplePage]).technical_seo.technical_score * 0.35 +
        (buildSiteAnalysis sampleHash (normalizeDomain "x.com")
          [samplePage]).ai_readiness.ai_optimization_score * 0.25) :=
  ⟨rfl, site_score_formula crawlAllOk sampleHash "x.com" _ rfl⟩

end SeoEngine
